import Mathlib

/-!
Verification of the transcript-acquisition and caption pipeline of
`streamlit_app.py` (YouTubeCaptionGenerator plus the `main` orchestration
loop), shallowly embedded in Lean.  External effects (subprocess runs,
remote-service calls, the file system, `os.unlink`) are modelled by an
explicit environment `Env` of oracles and a threaded state `St` holding
the simulated file system and a trace of the external calls that were made.
-/

/-! ## Python-style string primitives -/

/-- Python list/str membership helper: is `pat` a prefix of `s`? -/
def hasPre : List Char → List Char → Bool
  | [], _ => true
  | _ :: _, [] => false
  | a :: as, b :: bs => a == b && hasPre as bs

/-- Python `needle in hay` on strings, as substring search over char lists. -/
def hasSub (needle : List Char) : List Char → Bool
  | [] => hasPre needle []
  | c :: t => hasPre needle (c :: t) || hasSub needle t

/-- Python `needle in hay` for `String`s. -/
def strIn (needle hay : String) : Bool := hasSub needle.data hay.data

/-- Python `str.strip()`: drop leading and trailing whitespace. -/
def pyStrip (s : String) : String :=
  String.mk (((s.data.dropWhile Char.isWhitespace).reverse.dropWhile
    Char.isWhitespace).reverse)

/-- Python `str.isdigit()` (over ASCII digits): nonempty and all digits. -/
def pyIsdigit (s : String) : Bool :=
  !(s.data.isEmpty) && s.data.all Char.isDigit

/-- Python truthiness of an optional string: `None` and `""` are falsy. -/
def pyTruthy : Option String → Bool
  | none => false
  | some s => !(s == "")

/-- Python `s.split('\n')` on the underlying char list. -/
def splitNlAux : List Char → List (List Char)
  | [] => [[]]
  | c :: t =>
    if c == '\n' then [] :: splitNlAux t
    else
      match splitNlAux t with
      | [] => [[c]]
      | h :: r => (c :: h) :: r

/-- Python `s.split('\n')` for `String`s. -/
def splitLines (s : String) : List String := (splitNlAux s.data).map String.mk

/-- Python `' '.join(lines)`. -/
def joinSpaces : List String → String
  | [] => ""
  | [s] => s
  | s :: rest => s ++ " " ++ joinSpaces rest

/-- Fuel-indexed worker for Python `str.replace` (replace all occurrences). -/
def replAux (pat rep : List Char) : Nat → List Char → List Char
  | 0, s => s
  | _ + 1, [] => []
  | n + 1, c :: t =>
    if hasPre pat (c :: t) && !pat.isEmpty then
      rep ++ replAux pat rep n ((c :: t).drop pat.length)
    else c :: replAux pat rep n t

/-- Python `s.replace(pat, rep)` for `String`s. -/
def pyReplace (s pat rep : String) : String :=
  String.mk (replAux pat.data rep.data s.data.length s.data)

/-! ## The VTT cue-file parser of `_get_auto_transcript` (lines 112-121) -/

/-- The filter condition of the parsing loop in `_get_auto_transcript`:
`if line and not line.startswith('WEBVTT') and '-->' not in line and not
line.isdigit()`. -/
def vttKeep (line : String) : Bool :=
  !(line == "") && !(hasPre "WEBVTT".data line.data) &&
    !(strIn "-->" line) && !(pyIsdigit line)

/-- The accumulation loop of `_get_auto_transcript`: strip each line and
append it to `transcript_lines` when `vttKeep` holds. -/
def vttLines : List String → List String
  | [] => []
  | l :: ls =>
    let line := pyStrip l
    if vttKeep line then line :: vttLines ls else vttLines ls

/-- The whole cue-file-to-text parse of `_get_auto_transcript`:
split on newlines, run the loop, join with single spaces. -/
def parseVtt (content : String) : String :=
  joinSpaces (vttLines (splitLines content))

/-! ## Environment, state and data model -/

/-- One recorded external call (subprocess invocation or remote-service
call) made by the pipeline. -/
inductive Call where
  | subs (url : String)
  | dl (url : String)
  | whisper (path : String)
  | chat (prompt : String)
deriving DecidableEq, Repr

/-- Outcome of the `yt-dlp` subtitle invocation in `_get_auto_transcript`:
its exit code and the content of the first `*.vtt` file it wrote into the
temporary directory, if any. -/
structure SubsRun where
  returncode : Int
  vttContent : Option String
deriving DecidableEq, Repr

/-- Outcome of the `yt-dlp` audio invocation in `_download_audio`: its exit
code and the files (path, byte size) it wrote. -/
structure DlRun where
  returncode : Int
  written : List (String × Nat)
deriving DecidableEq, Repr

/-- Oracles for every external effect the pipeline performs.  An
`Except.error e` models the call raising an exception whose `str` is `e`. -/
structure Env where
  subsCall : String → Except String SubsRun
  tempPath : String
  dlCall : String → Except String DlRun
  whisperCall : String → Except String String
  chatCall : String → Except String String
  unlinkErr : String → Option String

/-- Threaded simulation state: the file system (existing paths with byte
sizes) and the trace of external calls made so far. -/
structure St where
  fs : List (String × Nat)
  calls : List Call
deriving DecidableEq, Repr

/-- Does `p` exist on the simulated disk? (`os.path.exists`) -/
def fsExists (fs : List (String × Nat)) (p : String) : Bool :=
  fs.any (fun e => e.1 == p)

/-- Byte size of `p` if it exists (`os.path.getsize`). -/
def fsSize (fs : List (String × Nat)) (p : String) : Option Nat :=
  (fs.find? (fun e => e.1 == p)).map (fun e => e.2)

/-- Delete `p` from the simulated disk (`os.unlink`). -/
def fsRemove (fs : List (String × Nat)) (p : String) : List (String × Nat) :=
  fs.filter (fun e => !(e.1 == p))

/-- Create or overwrite `p` with size `n`. -/
def fsWrite (fs : List (String × Nat)) (p : String) (n : Nat) :
    List (String × Nat) :=
  (p, n) :: fsRemove fs p

/-- Apply a batch of file writes in order. -/
def fsWriteAll (fs : List (String × Nat)) (ws : List (String × Nat)) :
    List (String × Nat) :=
  ws.foldl (fun a w => fsWrite a w.1 w.2) fs

/-- The result dict of `process_shorts_url` (plus the `url` key the
orchestration loop adds); absent dict keys are `none`. -/
structure PResult where
  success : Bool
  caption : Option String := none
  transcript : Option String := none
  error : Option String := none
  url : Option String := none
deriving DecidableEq, Repr

/-! ## Pipeline components -/

/-- `_get_auto_transcript` (lines 95-125): run the subtitle tool in a
temporary directory (cleaned up automatically, so no lasting file-system
effect); on exit code 0 with a cue file, parse it; on non-zero exit, no cue
file, or any exception (for example the 60s timeout), return `None`. -/
def getAutoTranscript (env : Env) (st : St) (url : String) :
    Option String × St :=
  let st1 : St := { st with calls := st.calls ++ [Call.subs url] }
  match env.subsCall url with
  | .error _ => (none, st1)
  | .ok r =>
    if r.returncode == 0 then
      match r.vttContent with
      | some content => (some (parseVtt content), st1)
      | none => (none, st1)
    else (none, st1)

/-- The candidate output paths checked by `_download_audio` (lines
145-149): the requested `.mp3` path and the `.m4a`/`.webm` variants. -/
def possibleFiles (tempPath : String) : List String :=
  [tempPath, pyReplace tempPath ".mp3" ".m4a", pyReplace tempPath ".mp3" ".webm"]

/-- `_download_audio` (lines 127-169): `NamedTemporaryFile(suffix='.mp3',
delete=False)` creates an empty file at `env.tempPath` on disk; then the
downloader runs.  On exit code 0 the first existing candidate path is
returned; on non-zero exit, timeout, or any exception, `None` is returned
(note: nothing deletes the pre-created temporary file on those paths). -/
def downloadAudio (env : Env) (st : St) (url : String) :
    Option String × St :=
  let temp := env.tempPath
  let st1 : St := { st with fs := fsWrite st.fs temp 0 }
  let st2 : St := { st1 with calls := st1.calls ++ [Call.dl url] }
  match env.dlCall url with
  | .error _ => (none, st2)
  | .ok r =>
    let st3 : St := { st2 with fs := fsWriteAll st2.fs r.written }
    if r.returncode == 0 then
      match (possibleFiles temp).find? (fun p => fsExists st3.fs p) with
      | some p => (some p, st3)
      | none => (none, st3)
    else (none, st3)

/-- `_transcribe_audio` (lines 171-200): fail (return `None`) if the file
is missing or zero-byte; otherwise call the speech-to-text service, and
convert any raised error into `None`. -/
def transcribeAudio (env : Env) (st : St) (path : String) :
    Option String × St :=
  if fsExists st.fs path then
    match fsSize st.fs path with
    | some 0 => (none, st)
    | _ =>
      let st1 : St := { st with calls := st.calls ++ [Call.whisper path] }
      match env.whisperCall path with
      | .ok t => (some t, st1)
      | .error _ => (none, st1)
  else (none, st)

/-- The audio-fallback branch of `_extract_transcript` (lines 86-93):
download audio; if a path came back (Python truthiness), transcribe it,
then `os.unlink` the path if it still exists (an exception from `unlink`
propagates, modelled as `Except.error`), and return the transcription
result; if no path came back, return `None`. -/
def audioFallback (env : Env) (st : St) (url : String) :
    Except String (Option String) × St :=
  let d := downloadAudio env st url
  if pyTruthy d.1 then
    let path := d.1.getD ""
    let t := transcribeAudio env d.2 path
    if fsExists t.2.fs path then
      match env.unlinkErr path with
      | some e => (.error e, t.2)
      | none => (.ok t.1, { t.2 with fs := fsRemove t.2.fs path })
    else (.ok t.1, t.2)
  else (.ok none, d.2)

/-- `_extract_transcript` (lines 75-93): try the subtitle tier; if it
yields truthy text return it immediately, otherwise run the audio-fallback
branch. -/
def extractTranscript (env : Env) (st : St) (url : String) :
    Except String (Option String) × St :=
  let a := getAutoTranscript env st url
  if pyTruthy a.1 then (.ok a.1, a.2)
  else audioFallback env a.2 url

/-- The fixed prompt template of `_generate_caption` (lines 209-230), with
the transcript embedded verbatim. -/
def captionPrompt (transcript : String) : String :=
  "\nYou are a social media expert specializing in healthcare marketing. \n\nCreate a catchy, engaging caption for a YouTube Short based on this transcript.\n\nTRANSCRIPT:\n"
    ++ transcript ++
    "\n\nREQUIREMENTS:\n- 1-2 punchy sentences maximum\n- Healthcare/medical tone but accessible to general audience  \n- Include relevant emojis (2-3 max)\n- Focus on the key insight or takeaway\n- Make it shareable and engaging\n- Avoid medical jargon - keep it conversational\n\nEXAMPLES:\n\"🩺 Did you know this simple trick can reduce back pain in 30 seconds? Your spine will thank you!\"\n\"💊 The truth about supplements that Big Pharma doesn\x27t want you to know...\"\n\nGenerate ONLY the caption, no explanation:\n"

/-- `_generate_caption` (lines 202-245): sentinel for a falsy transcript;
otherwise call the text-generation service on the fixed prompt, returning
the stripped completion, or the sentinel error string embedding the
stringified exception if the call raises. -/
def generateCaption (env : Env) (st : St) (transcript : String) :
    String × St :=
  if transcript == "" then ("❌ No transcript available", st)
  else
    let p := captionPrompt transcript
    let st1 : St := { st with calls := st.calls ++ [Call.chat p] }
    match env.chatCall p with
    | .ok s => (pyStrip s, st1)
    | .error e => ("❌ Caption error: " ++ e, st1)

/-- The transcript preview of `process_shorts_url` (line 69):
`transcript[:200] + '...' if len(transcript) > 200 else transcript`. -/
def previewOf (t : String) : String :=
  if 200 < t.data.length then String.mk (t.data.take 200) ++ "..." else t

/-- The body of `process_shorts_url` inside its `try` (lines 52-70): URL
validation by substring test, transcript extraction, truthiness check,
caption generation, result assembly.  `Except.error` means an exception
escaped to the surrounding handler. -/
def processBody (env : Env) (st : St) (url : String) :
    Except String PResult × St :=
  if !(strIn "youtube.com/shorts/" url) && !(strIn "youtu.be/" url) then
    (.ok { success := false, error := some "Invalid YouTube URL" }, st)
  else
    let ex := extractTranscript env st url
    match ex.1 with
    | .error e => (.error e, ex.2)
    | .ok t =>
      if !(pyTruthy t) then
        (.ok { success := false, error := some "Could not extract transcript" },
          ex.2)
      else
        let tr := t.getD ""
        let g := generateCaption env ex.2 tr
        (.ok { success := true, caption := some g.1,
               transcript := some (previewOf tr) }, g.2)

/-- `process_shorts_url` (lines 49-73): the body plus the catch-all
`except Exception as e: return {'success': False, 'error': str(e)}`. -/
def processShortsUrl (env : Env) (st : St) (url : String) : PResult × St :=
  let b := processBody env st url
  match b.1 with
  | .ok r => (r, b.2)
  | .error e => ({ success := false, error := some e }, b.2)

/-- The orchestration loop of `main` (lines 337-347): process each URL in
order, attach the `url` key, collect the results. -/
def runAll (env : Env) (st : St) : List String → List PResult × St
  | [] => ([], st)
  | u :: rest =>
    let p := processShortsUrl env st u
    let r : PResult := { p.1 with url := some u }
    let tail := runAll env p.2 rest
    (r :: tail.1, tail.2)

/-- The results-summary metrics of `main` (lines 360-372).  `rate` is the
displayed percentage `len(successful)/len(results)*100`. -/
structure Summary where
  total : Nat
  successful : Nat
  failed : Nat
  rate : ℚ
deriving DecidableEq, Repr

/-- The summary computation of `main` (lines 360-372).  Python evaluates
`len(successful)/len(results)*100`, which raises `ZeroDivisionError` when
`results` is empty; that fault is modelled as `Except.error`. -/
def summarize (results : List PResult) : Except String Summary :=
  let succ := results.filter (fun r => r.success)
  let fail := results.filter (fun r => !r.success)
  if results.length == 0 then .error "ZeroDivisionError: division by zero"
  else
    .ok { total := results.length, successful := succ.length,
          failed := fail.length,
          rate := (succ.length : ℚ) / (results.length : ℚ) * 100 }

/-- The `main` batch flow (lines 319-372): return early (no summary) when
the text area is blank or parses to no URLs; otherwise process every URL in
order and compute the summary. -/
def mainRun (env : Env) (st : St) (text : String) :
    Option (List PResult × Except String Summary) × St :=
  if pyStrip text == "" then (none, st)
  else
    let urls := ((splitLines text).map pyStrip).filter (fun s => !(s == ""))
    if urls.isEmpty then (none, st)
    else
      let r := runAll env st urls
      (some (r.1, summarize r.1), r.2)

/-! ## Concrete environments and states for witnesses -/

/-- Initial simulation state: empty disk, no calls recorded. -/
def st0 : St := { fs := [], calls := [] }

/-- An offline environment: every external call raises. -/
def env0 : Env :=
  { subsCall := fun _ => .error "offline"
    tempPath := "/tmp/t0.mp3"
    dlCall := fun _ => .error "offline"
    whisperCall := fun _ => .error "offline"
    chatCall := fun _ => .error "offline"
    unlinkErr := fun _ => none }

/-- Environment where subtitles succeed with a one-cue VTT file and the
text-generation call succeeds. -/
def envSubs : Env :=
  { subsCall := fun _ => .ok { returncode := 0, vttContent := some "WEBVTT\nhello" }
    tempPath := "/tmp/s.mp3"
    dlCall := fun _ => .error "offline"
    whisperCall := fun _ => .error "offline"
    chatCall := fun _ => .ok " cap "
    unlinkErr := fun _ => none }

/-- Environment where subtitles succeed but the text-generation call
raises. -/
def envChatErr : Env :=
  { subsCall := fun _ => .ok { returncode := 0, vttContent := some "WEBVTT\nhello" }
    tempPath := "/tmp/s.mp3"
    dlCall := fun _ => .error "offline"
    whisperCall := fun _ => .error "offline"
    chatCall := fun _ => .error "rate limit"
    unlinkErr := fun _ => none }

/-- Environment where no subtitles exist and the audio downloader exits
non-zero without writing anything (beyond the pre-created temp file). -/
def envDlFail : Env :=
  { subsCall := fun _ => .ok { returncode := 1, vttContent := none }
    tempPath := "/tmp/c4.mp3"
    dlCall := fun _ => .ok { returncode := 1, written := [] }
    whisperCall := fun _ => .error "offline"
    chatCall := fun _ => .error "offline"
    unlinkErr := fun _ => none }

/-- Environment where no subtitles exist, the download succeeds, and the
transcription service returns the empty string. -/
def envEmptyWhisper : Env :=
  { subsCall := fun _ => .ok { returncode := 0, vttContent := some "WEBVTT" }
    tempPath := "/tmp/c8.mp3"
    dlCall := fun _ => .ok { returncode := 0, written := [("/tmp/c8.mp3", 5)] }
    whisperCall := fun _ => .ok ""
    chatCall := fun _ => .error "offline"
    unlinkErr := fun _ => none }

/-- Environment where no subtitles exist, the download succeeds, and
`os.unlink` raises. -/
def envUnlinkErr : Env :=
  { subsCall := fun _ => .error "no subs"
    tempPath := "/tmp/e.mp3"
    dlCall := fun _ => .ok { returncode := 0, written := [("/tmp/e.mp3", 3)] }
    whisperCall := fun _ => .ok "t"
    chatCall := fun _ => .error "offline"
    unlinkErr := fun _ => some "boom" }

/-- Environment where the download succeeds cleanly end to end. -/
def envDlOk : Env :=
  { subsCall := fun _ => .error "no subs"
    tempPath := "/tmp/a.mp3"
    dlCall := fun _ => .ok { returncode := 0, written := [("/tmp/a.mp3", 7)] }
    whisperCall := fun _ => .ok "hi"
    chatCall := fun _ => .ok "c"
    unlinkErr := fun _ => none }

/-- The result record `main` builds for the invalid input "not-a-url". -/
def resInvalid : PResult :=
  { success := false, error := some "Invalid YouTube URL",
    url := some "not-a-url" }

/-! ## Theorems -/

/-- The parsing loop is the declarative strip-then-filter composition. -/
theorem vttLines_eq_filter (ls : List String) :
    vttLines ls = (ls.map pyStrip).filter vttKeep := by
  induction ls with
  | nil => simp [vttLines]
  | cons l ls ih =>
    simp only [vttLines, List.map, List.filter]
    cases h : vttKeep (pyStrip l) <;> simp [h, ih]

/-- C7: the Subtitle Fetcher's parser splits the cue file into lines, strips
each line, drops format-header lines (`WEBVTT` prefix), lines containing a
`-->` range marker, and pure-numeric lines, and joins the remaining
non-empty lines with single spaces in their original order. -/
theorem c7_vtt_parse_is_strip_filter_join (content : String) :
    parseVtt content =
      joinSpaces (((splitLines content).map pyStrip).filter
        (fun line => !(line == "") && !(hasPre "WEBVTT".data line.data) &&
          !(strIn "-->" line) && !(pyIsdigit line))) := by
  simp only [parseVtt, vttLines_eq_filter]
  rfl

/-! ## State and trace lemmas about the components -/

/-- The subtitle tier records exactly one external call and leaves the
disk unchanged. -/
theorem getAuto_snd (env : Env) (st : St) (url : String) :
    (getAutoTranscript env st url).2 =
      { st with calls := st.calls ++ [Call.subs url] } := by
  simp only [getAutoTranscript]
  split <;> (try split) <;> (try split) <;> rfl

/-- The audio downloader records exactly one external call. -/
theorem download_calls (env : Env) (st : St) (url : String) :
    (downloadAudio env st url).2.calls = st.calls ++ [Call.dl url] := by
  simp only [downloadAudio]
  split <;> (try split) <;> (try split) <;> rfl

/-- Transcription does not touch the disk. -/
theorem transcribe_fs (env : Env) (st : St) (path : String) :
    (transcribeAudio env st path).2.fs = st.fs := by
  simp only [transcribeAudio]
  split <;> (try split) <;> (try split) <;> rfl

/-- Transcription only appends to the call trace. -/
theorem transcribe_calls (env : Env) (st : St) (path : String) :
    ∃ l, (transcribeAudio env st path).2.calls = st.calls ++ l := by
  simp only [transcribeAudio]
  split
  · split
    · exact ⟨[], by simp⟩
    · split <;> exact ⟨[Call.whisper path], rfl⟩
  · exact ⟨[], by simp⟩

/-- A deleted path no longer exists. -/
theorem fsExists_fsRemove (fs : List (String × Nat)) (p : String) :
    fsExists (fsRemove fs p) p = false := by
  simp [fsExists, fsRemove, List.any_eq_true, List.mem_filter]

/-- The audio-fallback branch only appends to the call trace. -/
theorem audioFallback_calls (env : Env) (st : St) (url : String) :
    ∃ l, (audioFallback env st url).2.calls = st.calls ++ l := by
  simp only [audioFallback]
  obtain ⟨l1, h1⟩ := transcribe_calls env (downloadAudio env st url).2
    ((downloadAudio env st url).1.getD "")
  have hd := download_calls env st url
  split
  · split
    · split
      · exact ⟨[Call.dl url] ++ l1, by rw [h1, hd, List.append_assoc]⟩
      · exact ⟨[Call.dl url] ++ l1, by
          show (transcribeAudio env (downloadAudio env st url).2
            ((downloadAudio env st url).1.getD "")).2.calls = _
          rw [h1, hd, List.append_assoc]⟩
    · exact ⟨[Call.dl url] ++ l1, by rw [h1, hd, List.append_assoc]⟩
  · exact ⟨[Call.dl url], hd⟩

/-- The Resolver records the subtitle call first and only appends after
it. -/
theorem extract_calls (env : Env) (st : St) (url : String) :
    ∃ l, (extractTranscript env st url).2.calls =
      st.calls ++ Call.subs url :: l := by
  simp only [extractTranscript]
  have ha := getAuto_snd env st url
  split
  · exact ⟨[], by rw [ha]⟩
  · obtain ⟨l, hl⟩ := audioFallback_calls env (getAutoTranscript env st url).2 url
    refine ⟨l, ?_⟩
    rw [hl, ha]
    simp

/-- Caption generation only appends to the call trace. -/
theorem generate_calls (env : Env) (st : St) (t : String) :
    ∃ l, (generateCaption env st t).2.calls = st.calls ++ l := by
  simp only [generateCaption]
  split
  · exact ⟨[], by simp⟩
  · split <;> exact ⟨[Call.chat (captionPrompt t)], rfl⟩

/-- The orchestration loop pairs results with URLs positionally. -/
theorem runAll_map_url (env : Env) (st : St) (urls : List String) :
    (runAll env st urls).1.map (fun r => r.url) = urls.map some := by
  induction urls generalizing st with
  | nil => rfl
  | cons u rest ih => simp [runAll, ih]

/-- The orchestration loop yields one result per URL. -/
theorem runAll_length (env : Env) (st : St) (urls : List String) :
    (runAll env st urls).1.length = urls.length := by
  have h := congrArg List.length (runAll_map_url env st urls)
  simpa using h

/-! ## Claim theorems -/

/-- C2: a URL lacking both recognized substrings yields the fixed failure
result with reason "Invalid YouTube URL", the state (disk and external-call
trace) is unchanged, so zero external calls are made for that URL. -/
theorem c2_invalid_url_fixed_failure_no_calls (env : Env) (st : St)
    (url : String)
    (h1 : strIn "youtube.com/shorts/" url = false)
    (h2 : strIn "youtu.be/" url = false) :
    processShortsUrl env st url =
      ({ success := false, error := some "Invalid YouTube URL" }, st) ∧
    (processShortsUrl env st url).2.calls = st.calls := by
  have hb : processBody env st url =
      (.ok { success := false, error := some "Invalid YouTube URL" }, st) := by
    simp [processBody, h1, h2]
  refine ⟨?_, ?_⟩ <;> simp [processShortsUrl, hb]

/-- C2 witness: the concrete input "not-a-video-url". -/
theorem c2_invalid_url_witness :
    strIn "youtube.com/shorts/" "not-a-video-url" = false ∧
    strIn "youtu.be/" "not-a-video-url" = false ∧
    (processShortsUrl env0 st0 "not-a-video-url" =
      ({ success := false, error := some "Invalid YouTube URL" }, st0) ∧
    (processShortsUrl env0 st0 "not-a-video-url").2.calls = st0.calls) :=
  ⟨by decide, by decide,
    c2_invalid_url_fixed_failure_no_calls env0 st0 "not-a-video-url"
      (by decide) (by decide)⟩

/-- Any URL passing the substring validation reaches the Subtitle Fetcher:
the subtitle-tool invocation is recorded in the call trace. -/
theorem processShortsUrl_subs_call (env : Env) (st : St) (url : String)
    (hcond : (!(strIn "youtube.com/shorts/" url) &&
              !(strIn "youtu.be/" url)) = false) :
    ∃ l, (processShortsUrl env st url).2.calls =
      st.calls ++ Call.subs url :: l := by
  obtain ⟨l, hl⟩ := extract_calls env st url
  rcases hE : extractTranscript env st url with ⟨exv, exst⟩
  rw [hE] at hl
  simp only [processShortsUrl, processBody, hcond, Bool.false_eq_true,
    if_false, hE]
  simp only at hl
  cases exv with
  | error e => exact ⟨l, hl⟩
  | ok t =>
    cases ht : pyTruthy t with
    | false =>
      refine ⟨l, ?_⟩
      simp [ht]
      exact hl
    | true =>
      obtain ⟨l2, hl2⟩ := generate_calls env exst (t.getD "")
      refine ⟨l ++ l2, ?_⟩
      simp [ht]
      rw [hl2, hl]
      simp

/-- C10: URL validation is a pure substring test: any string containing
"youtube.com/shorts/" or "youtu.be/" anywhere passes validation and
proceeds to transcript extraction — the external subtitle-tool call is
made for it. -/
theorem c10_substring_validation_reaches_fetcher (env : Env) (st : St)
    (url : String)
    (h : (strIn "youtube.com/shorts/" url || strIn "youtu.be/" url) = true) :
    Call.subs url ∈ (processShortsUrl env st url).2.calls := by
  have hcond : (!(strIn "youtube.com/shorts/" url) &&
      !(strIn "youtu.be/" url)) = false := by
    cases h1 : strIn "youtube.com/shorts/" url <;>
      cases h2 : strIn "youtu.be/" url <;> simp_all
  obtain ⟨l, hl⟩ := processShortsUrl_subs_call env st url hcond
  rw [hl]
  simp

/-- C10 witness: a `youtu.be` link to a regular (non-Shorts) video passes
validation and triggers the external subtitle call. -/
theorem c10_substring_validation_witness :
    (strIn "youtube.com/shorts/" "https://youtu.be/regular-video" ||
      strIn "youtu.be/" "https://youtu.be/regular-video") = true ∧
    Call.subs "https://youtu.be/regular-video" ∈
      (processShortsUrl env0 st0 "https://youtu.be/regular-video").2.calls :=
  ⟨by decide, c10_substring_validation_reaches_fetcher env0 st0
    "https://youtu.be/regular-video" (by decide)⟩

/-- C3: if the Subtitle Fetcher returns non-empty text, the Resolver
returns that text immediately and the final call trace contains nothing
beyond the prior calls and the one subtitle call — in particular no
Audio Acquirer (`Call.dl`) and no Speech Transcriber (`Call.whisper`)
invocation for that URL. -/
theorem c3_subtitle_short_circuit (env : Env) (st : St) (url : String)
    (t : String) (st1 : St)
    (h : getAutoTranscript env st url = (some t, st1)) (ht : t ≠ "") :
    extractTranscript env st url = (.ok (some t), st1) ∧
    ∀ c ∈ st1.calls, c ∈ st.calls ∨ c = Call.subs url := by
  have hs := getAuto_snd env st url
  rw [h] at hs
  simp only at hs
  have htr : pyTruthy (some t) = true := by simp [pyTruthy, ht]
  constructor
  · simp only [extractTranscript, h, htr, if_true]
  · intro c hc
    rw [hs] at hc
    simp only [St.calls] at hc
    rcases List.mem_append.mp hc with h1 | h2
    · exact Or.inl h1
    · simp only [List.mem_singleton] at h2
      exact Or.inr h2

/-- C3 witness: a concrete environment whose subtitle tool yields the cue
text "hello"; the Resolver returns it and makes no audio calls. -/
theorem c3_subtitle_short_circuit_witness :
    getAutoTranscript envSubs st0 "https://youtube.com/shorts/abc" =
      (some "hello",
        { fs := [], calls := [Call.subs "https://youtube.com/shorts/abc"] }) ∧
    "hello" ≠ "" ∧
    (extractTranscript envSubs st0 "https://youtube.com/shorts/abc" =
      (.ok (some "hello"),
        { fs := [], calls := [Call.subs "https://youtube.com/shorts/abc"] }) ∧
    ∀ c ∈ (St.mk []
        [Call.subs "https://youtube.com/shorts/abc"]).calls,
      c ∈ st0.calls ∨ c = Call.subs "https://youtube.com/shorts/abc") :=
  ⟨rfl, by decide,
    c3_subtitle_short_circuit envSubs st0 "https://youtube.com/shorts/abc"
      "hello" _ rfl (by decide)⟩

/-- C1: the orchestration loop produces exactly one result per input URL,
in input order (the i-th result carries the i-th URL), and an exception
escaping `process_shorts_url`'s body is converted by its catch-all handler
into a failure result rather than propagating to the loop. -/
theorem c1_one_result_per_url_in_order (env : Env) (st : St)
    (urls : List String) :
    ((runAll env st urls).1.map (fun r => r.url) = urls.map some ∧
     (runAll env st urls).1.length = urls.length) ∧
    ∀ url e st1, processBody env st url = (.error e, st1) →
      processShortsUrl env st url =
        ({ success := false, error := some e }, st1) := by
  refine ⟨⟨runAll_map_url env st urls, runAll_length env st urls⟩, ?_⟩
  intro url e st1 hb
  simp [processShortsUrl, hb]

/-- C1 witness: a concrete run in which `os.unlink` raises "boom" inside
the body; the catch-all still yields a failure result record. -/
theorem c1_one_result_per_url_witness :
    processBody envUnlinkErr st0 "https://youtu.be/x" =
      (.error "boom",
        { fs := [("/tmp/e.mp3", 3)],
          calls := [Call.subs "https://youtu.be/x",
            Call.dl "https://youtu.be/x", Call.whisper "/tmp/e.mp3"] }) ∧
    processShortsUrl envUnlinkErr st0 "https://youtu.be/x" =
      ({ success := false, error := some "boom" },
        { fs := [("/tmp/e.mp3", 3)],
          calls := [Call.subs "https://youtu.be/x",
            Call.dl "https://youtu.be/x", Call.whisper "/tmp/e.mp3"] }) :=
  ⟨rfl,
    (c1_one_result_per_url_in_order envUnlinkErr st0 []).2
      "https://youtu.be/x" "boom" _ rfl⟩

/-- C4 counterexample: with no subtitles and a downloader that exits
non-zero, the audio-fallback branch returns (absence, no exception) while
the temporary `.mp3` file pre-created for that URL by
`NamedTemporaryFile(delete=False)` still exists on disk — deletion is not
unconditional on the downloader-failure exit paths. -/
theorem c4_cleanup_counterexample :
    (extractTranscript envDlFail st0 "https://youtu.be/c4").1 =
      Except.ok none ∧
    fsExists (extractTranscript envDlFail st0 "https://youtu.be/c4").2.fs
      "/tmp/c4.mp3" = true :=
  ⟨rfl, rfl⟩

/-- C4 amended: when the Audio Acquirer does return a path and the
`os.unlink` call does not itself raise, that file no longer exists on disk
after the audio-fallback branch returns, regardless of transcription
outcome; on downloader failure (non-zero exit, timeout, exception) the
pre-created temporary file is not deleted. -/
theorem c4_cleanup_amended (env : Env) (st : St) (url : String)
    (path : String) (st1 : St)
    (hd : downloadAudio env st url = (some path, st1))
    (hp : path ≠ "")
    (hu : env.unlinkErr path = none) :
    fsExists (audioFallback env st url).2.fs path = false := by
  have htr : pyTruthy (some path) = true := by simp [pyTruthy, hp]
  cases hfe : fsExists (transcribeAudio env st1 path).2.fs path with
  | false =>
    simp [audioFallback, hd, htr, hfe]
  | true =>
    simp [audioFallback, hd, htr, hfe, hu, fsExists_fsRemove]

/-- C4 witness: a concrete successful download and transcription; the
returned audio file is gone after the branch returns. -/
theorem c4_cleanup_amended_witness :
    downloadAudio envDlOk st0 "https://youtu.be/a" =
      (some "/tmp/a.mp3",
        { fs := [("/tmp/a.mp3", 7)], calls := [Call.dl "https://youtu.be/a"] }) ∧
    "/tmp/a.mp3" ≠ "" ∧
    envDlOk.unlinkErr "/tmp/a.mp3" = none ∧
    fsExists (audioFallback envDlOk st0 "https://youtu.be/a").2.fs
      "/tmp/a.mp3" = false :=
  ⟨rfl, by decide, rfl,
    c4_cleanup_amended envDlOk st0 "https://youtu.be/a" "/tmp/a.mp3" _
      rfl (by decide) rfl⟩

/-- C5: if the remote text-generation call raises, `_generate_caption`
returns the sentinel error string embedding the stringified exception, and
`process_shorts_url` still wraps the outcome as a success result whose
caption is that sentinel text. -/
theorem c5_chat_error_sentinel_success (env : Env) (st : St) (url : String)
    (t : String) (st1 : St) (e : String)
    (hvalid : (strIn "youtube.com/shorts/" url ||
               strIn "youtu.be/" url) = true)
    (hex : extractTranscript env st url = (.ok (some t), st1))
    (ht : t ≠ "")
    (hchat : env.chatCall (captionPrompt t) = .error e) :
    (processShortsUrl env st url).1.success = true ∧
    (processShortsUrl env st url).1.caption =
      some ("❌ Caption error: " ++ e) := by
  have hcond : (!(strIn "youtube.com/shorts/" url) &&
      !(strIn "youtu.be/" url)) = false := by
    cases h1 : strIn "youtube.com/shorts/" url <;>
      cases h2 : strIn "youtu.be/" url <;> simp_all
  have htr : pyTruthy (some t) = true := by simp [pyTruthy, ht]
  have hg : generateCaption env st1 t =
      ("❌ Caption error: " ++ e,
        { st1 with calls := st1.calls ++ [Call.chat (captionPrompt t)] }) := by
    simp [generateCaption, ht, hchat]
  refine ⟨?_, ?_⟩ <;>
    simp [processShortsUrl, processBody, hcond, hex, htr, hg]

/-- C5 witness: a concrete environment whose text-generation call raises
"rate limit"; the result is a success record carrying the sentinel. -/
theorem c5_chat_error_sentinel_witness :
    (strIn "youtube.com/shorts/" "https://youtube.com/shorts/c5" ||
      strIn "youtu.be/" "https://youtube.com/shorts/c5") = true ∧
    extractTranscript envChatErr st0 "https://youtube.com/shorts/c5" =
      (.ok (some "hello"),
        { fs := [], calls := [Call.subs "https://youtube.com/shorts/c5"] }) ∧
    "hello" ≠ "" ∧
    envChatErr.chatCall (captionPrompt "hello") = .error "rate limit" ∧
    ((processShortsUrl envChatErr st0 "https://youtube.com/shorts/c5").1.success
        = true ∧
     (processShortsUrl envChatErr st0 "https://youtube.com/shorts/c5").1.caption
        = some ("❌ Caption error: " ++ "rate limit")) :=
  ⟨by decide, rfl, by decide, rfl,
    c5_chat_error_sentinel_success envChatErr st0 "https://youtube.com/shorts/c5"
      "hello" _ "rate limit" (by decide) rfl (by decide) rfl⟩

/-- C8 counterexample: when transcription returns the empty string, the
Resolver hands back a present-but-empty transcript (`some ""`), not
absence (`none`) — empty is not represented as absence at the Resolver
boundary. -/
theorem c8_empty_not_absence_counterexample :
    (extractTranscript envEmptyWhisper st0
        "https://youtube.com/shorts/c8").1 = Except.ok (some "") ∧
    (extractTranscript envEmptyWhisper st0
        "https://youtube.com/shorts/c8").1 ≠ Except.ok none :=
  ⟨rfl,
    (by simp :
      Except.ok (some "") ≠ (Except.ok none : Except String (Option String)))⟩

/-- C8 amended: the Resolver may hand a present-but-empty transcript
onward, but the Orchestrator's truthiness check treats it exactly as
absence: an empty extraction outcome takes the failure path with reason
"Could not extract transcript", and the synthesis path never receives an
empty transcript. -/
theorem c8_empty_treated_as_absence (env : Env) (st : St) (url : String)
    (st1 : St)
    (hvalid : (strIn "youtube.com/shorts/" url ||
               strIn "youtu.be/" url) = true)
    (hex : extractTranscript env st url = (.ok (some ""), st1)) :
    processShortsUrl env st url =
      ({ success := false, error := some "Could not extract transcript" },
        st1) := by
  have hcond : (!(strIn "youtube.com/shorts/" url) &&
      !(strIn "youtu.be/" url)) = false := by
    cases h1 : strIn "youtube.com/shorts/" url <;>
      cases h2 : strIn "youtu.be/" url <;> simp_all
  have htr : pyTruthy (some "") = false := by simp [pyTruthy]
  simp [processShortsUrl, processBody, hcond, hex, htr]

/-- C8 witness: the concrete empty-transcription run ends on the failure
path. -/
theorem c8_empty_treated_as_absence_witness :
    (strIn "youtube.com/shorts/" "https://youtube.com/shorts/c8" ||
      strIn "youtu.be/" "https://youtube.com/shorts/c8") = true ∧
    extractTranscript envEmptyWhisper st0 "https://youtube.com/shorts/c8" =
      (.ok (some ""),
        { fs := [],
          calls := [Call.subs "https://youtube.com/shorts/c8",
            Call.dl "https://youtube.com/shorts/c8",
            Call.whisper "/tmp/c8.mp3"] }) ∧
    processShortsUrl envEmptyWhisper st0 "https://youtube.com/shorts/c8" =
      ({ success := false, error := some "Could not extract transcript" },
        { fs := [],
          calls := [Call.subs "https://youtube.com/shorts/c8",
            Call.dl "https://youtube.com/shorts/c8",
            Call.whisper "/tmp/c8.mp3"] }) :=
  ⟨by decide, rfl,
    c8_empty_treated_as_absence envEmptyWhisper st0
      "https://youtube.com/shorts/c8" _ (by decide) rfl⟩

/-- The preview is the 200-character cut plus an ellipsis exactly when the
transcript is longer than 200 characters. -/
theorem previewOf_eq (t : String) :
    previewOf t = String.mk (t.data.take 200) ++
      (if 200 < t.data.length then "..." else "") := by
  unfold previewOf
  by_cases hl : 200 < t.data.length
  · rw [if_pos hl, if_pos hl]
  · rw [if_neg hl, if_neg hl,
      List.take_of_length_le (Nat.le_of_not_lt hl), String.append_empty]

/-- C9: every successful result's transcript preview is exactly the first
min(200, len) characters of the resolved transcript, with an ellipsis
appended if and only if the transcript exceeds 200 characters. -/
theorem c9_preview_min200_ellipsis_iff_truncated (env : Env) (st : St)
    (url : String) (r : PResult) (st2 : St)
    (h : processShortsUrl env st url = (r, st2))
    (hs : r.success = true) :
    ∃ t st1, extractTranscript env st url = (.ok (some t), st1) ∧
      r.transcript =
        some (String.mk (t.data.take 200) ++
          (if 200 < t.data.length then "..." else "")) ∧
      (t.data.take 200).length = min 200 t.data.length := by
  cases hc : (!(strIn "youtube.com/shorts/" url) &&
      !(strIn "youtu.be/" url)) with
  | true =>
    have hp : processShortsUrl env st url =
        ({ success := false, error := some "Invalid YouTube URL" }, st) := by
      simp [processShortsUrl, processBody, hc]
    rw [hp] at h
    injection h with h1 h2
    rw [← h1] at hs
    simp at hs
  | false =>
    rcases hE : extractTranscript env st url with ⟨exv, exst⟩
    cases exv with
    | error e =>
      have hp : processShortsUrl env st url =
          ({ success := false, error := some e }, exst) := by
        simp [processShortsUrl, processBody, hc, hE]
      rw [hp] at h
      injection h with h1 h2
      rw [← h1] at hs
      simp at hs
    | ok t =>
      cases htr : pyTruthy t with
      | false =>
        have hp : processShortsUrl env st url =
            ({ success := false,
               error := some "Could not extract transcript" }, exst) := by
          simp [processShortsUrl, processBody, hc, hE, htr]
        rw [hp] at h
        injection h with h1 h2
        rw [← h1] at hs
        simp at hs
      | true =>
        cases t with
        | none => simp [pyTruthy] at htr
        | some s =>
          have hp : processShortsUrl env st url =
              ({ success := true,
                 caption := some (generateCaption env exst s).1,
                 transcript := some (previewOf s) },
                (generateCaption env exst s).2) := by
            simp [processShortsUrl, processBody, hc, hE, htr]
          rw [hp] at h
          injection h with h1 h2
          refine ⟨s, exst, rfl, ?_, ?_⟩
          · rw [← h1]
            exact congrArg some (previewOf_eq s)
          · simp [List.length_take]

/-- C9 witness: a concrete successful run (19-character transcript
"hello", no truncation, no ellipsis). -/
theorem c9_preview_min200_witness :
    ∃ t st1,
      extractTranscript envSubs st0 "https://youtube.com/shorts/abc" =
        (.ok (some t), st1) ∧
      (PResult.mk true (some "cap") (some "hello") none none).transcript =
        some (String.mk (t.data.take 200) ++
          (if 200 < t.data.length then "..." else "")) ∧
      (t.data.take 200).length = min 200 t.data.length :=
  c9_preview_min200_ellipsis_iff_truncated envSubs st0
    "https://youtube.com/shorts/abc"
    { success := true, caption := some "cap", transcript := some "hello" }
    { fs := [],
      calls := [Call.subs "https://youtube.com/shorts/abc",
        Call.chat (captionPrompt "hello")] }
    rfl rfl

/-- C6 counterexample: the summary computation does not define the success
rate as 0 for an empty result list — evaluated at total = 0 it raises
`ZeroDivisionError` (the code has no total = 0 guard in the rate
expression). -/
theorem c6_rate_zero_counterexample :
    summarize [] = Except.error "ZeroDivisionError: division by zero" := rfl

/-- C6 amended: the success rate equals successes divided by total (times
100 for display), and the summary is only ever computed for a nonempty
result list — empty input returns early without a summary — so the total
is positive whenever the summary exists and no division-by-zero fault
occurs. -/
theorem c6_rate_guarded_amended (env : Env) (st : St) (text : String)
    (res : List PResult) (sm : Except String Summary) (st2 : St)
    (h : mainRun env st text = (some (res, sm), st2)) :
    ∃ s, sm = Except.ok s ∧ s.total = res.length ∧ 0 < s.total ∧
      s.rate = (s.successful : ℚ) / (s.total : ℚ) * 100 := by
  unfold mainRun at h
  by_cases hb : (pyStrip text == "") = true
  · rw [if_pos hb] at h
    simp at h
  · rw [if_neg hb] at h
    by_cases he :
        (((splitLines text).map pyStrip).filter
          (fun s => !(s == ""))).isEmpty = true
    · rw [if_pos he] at h
      simp at h
    · rw [if_neg he] at h
      simp only [Prod.mk.injEq, Option.some.injEq] at h
      obtain ⟨⟨hres, hsm⟩, hst⟩ := h
      have hlen : res.length =
          (((splitLines text).map pyStrip).filter
            (fun s => !(s == ""))).length := by
        rw [← hres]
        exact runAll_length env st _
      have hpos : 0 < res.length := by
        rw [hlen]
        rcases hcase : ((splitLines text).map pyStrip).filter
            (fun s => !(s == "")) with _ | ⟨a, l⟩
        · rw [hcase] at he
          simp at he
        · simp
      have hzero : (res.length == 0) = false := by
        simp only [beq_eq_false_iff_ne, ne_eq]
        omega
      refine ⟨{ total := res.length,
                successful := (res.filter (fun r => r.success)).length,
                failed := (res.filter (fun r => !r.success)).length,
                rate := ((res.filter (fun r => r.success)).length : ℚ) /
                  (res.length : ℚ) * 100 }, ?_, rfl, hpos, rfl⟩
      rw [← hsm, hres]
      simp [summarize, hzero]

/-- C6 witness: one invalid URL; the summary exists with total 1 and rate
0/1 times 100. -/
theorem c6_rate_guarded_witness :
    ∃ s, summarize [resInvalid] = Except.ok s ∧
      s.total = [resInvalid].length ∧ 0 < s.total ∧
      s.rate = (s.successful : ℚ) / (s.total : ℚ) * 100 :=
  c6_rate_guarded_amended env0 st0 "not-a-url" [resInvalid]
    (summarize [resInvalid]) st0 (by rfl)
